import Mathlib

/-!
Verification of the MindX fleet-compliance dashboard core.

The computational core lives in `TaskB_Fleet_Dashboard/src/components/PoolingSimulator.js`
(the `simulatePooling` function and the deficit/surplus candidate lists) and
`FleetOverview.js` (the `netPosition` display computation). JavaScript numbers are
modelled as rationals, the React `useState` pair for the stored simulation result as
explicit state passing (`Option SimulationResult` in, `Option SimulationResult` out),
and absent selections (`null`) as `Option.none`. The Python pipeline
(`compliance.py` of Task A) ships only as documentation, so the classification,
benchmark and summary-assembly functions are modelled from the design document and
marked as such.
-/

namespace MindX

/-- An enriched voyage record as consumed by the dashboard (the `vessels` entries of
`compliance_results.json`): identifier and categorical fields, GHG intensity, signed
compliance balance, and the status string `"Surplus"` or `"Deficit"`. -/
structure Vessel where
  vessel_id : String
  ship_type : String
  route_id : String
  month : String
  ghg_intensity : ℚ
  compliance_balance : ℚ
  status : String
deriving DecidableEq

/-- The object stored by `setSimulationResult` in `PoolingSimulator.js`
(lines 171-180): the two participating vessels, their balances, the net balance,
the success flag and the two remainders. -/
structure SimulationResult where
  deficitVessel : Vessel
  surplusVessel : Vessel
  deficitBalance : ℚ
  surplusBalance : ℚ
  netBalance : ℚ
  isSuccessful : Bool
  remainingDeficit : ℚ
  remainingSurplus : ℚ
deriving DecidableEq

/-- JavaScript `Math.abs` on the rational model of JS numbers. -/
def mathAbs (q : ℚ) : ℚ := if q < 0 then -q else q

/-- The `simulatePooling` handler of `PoolingSimulator.js` (lines 162-181).
If either selection is absent (`null`) it returns early, leaving the stored
simulation result unchanged; otherwise it computes
`netBalance = surplusBalance + deficitBalance` and stores the result object with
`isSuccessful = netBalance >= 0`,
`remainingDeficit = netBalance < 0 ? Math.abs(netBalance) : 0` and
`remainingSurplus = netBalance > 0 ? netBalance : 0`. -/
def simulatePooling (selectedDeficit selectedSurplus : Option Vessel)
    (simulationResult : Option SimulationResult) : Option SimulationResult :=
  match selectedDeficit, selectedSurplus with
  | some d, some s =>
    let deficitBalance := d.compliance_balance
    let surplusBalance := s.compliance_balance
    let netBalance := surplusBalance + deficitBalance
    some {
      deficitVessel := d
      surplusVessel := s
      deficitBalance := deficitBalance
      surplusBalance := surplusBalance
      netBalance := netBalance
      isSuccessful := decide (netBalance ≥ 0)
      remainingDeficit := if netBalance < 0 then mathAbs netBalance else 0
      remainingSurplus := if netBalance > 0 then netBalance else 0 }
  | _, _ => simulationResult

/-- The deficit candidate list of `PoolingSimulator.js` (lines 147-159): vessels
whose status is `"Deficit"`, sorted ascending by compliance balance
(comparator `(a, b) => a.compliance_balance - b.compliance_balance`). -/
def deficitVessels (vessels : List Vessel) : List Vessel :=
  (vessels.filter (fun v => v.status == "Deficit")).mergeSort
    (fun a b => decide (a.compliance_balance ≤ b.compliance_balance))

/-- The surplus candidate list of `PoolingSimulator.js` (lines 147-159): vessels
whose status is `"Surplus"`, sorted descending by compliance balance
(comparator `(a, b) => b.compliance_balance - a.compliance_balance`). -/
def surplusVessels (vessels : List Vessel) : List Vessel :=
  (vessels.filter (fun v => v.status == "Surplus")).mergeSort
    (fun a b => decide (b.compliance_balance ≤ a.compliance_balance))

/-- The `compliance_summary` fields of the exported artifact that the dashboard
reads (`FleetOverview.js` destructures these from `summary`). -/
structure ComplianceSummary where
  total_vessels : ℕ
  surplus_count : ℕ
  deficit_count : ℕ
  total_surplus : ℚ
  total_deficit : ℚ
deriving DecidableEq

/-- The net fleet position computed by `FleetOverview.js` line 8:
`netPosition = summary.total_surplus + summary.total_deficit`. -/
def netPosition (summary : ComplianceSummary) : ℚ :=
  summary.total_surplus + summary.total_deficit

/-- Modelled from the spec: the `classify` step of the BenchmarkEngine
(`compliance.py` of Task A is not among the sources, only its documentation):
Surplus if balance ≥ 0, Deficit if balance < 0, the tie at exactly 0 going to
Surplus. -/
def classify (balance : ℚ) : String :=
  if balance ≥ 0 then "Surplus" else "Deficit"

/-- Modelled from the spec: the BenchmarkEngine target computation
(`compliance.py` is not among the sources):
`target(fleetAverage, reductionFraction) = fleetAverage × (1 − reductionFraction)`. -/
def target (fleetAverage reductionFraction : ℚ) : ℚ :=
  fleetAverage * (1 - reductionFraction)

/-- Demo `fleet_average_intensity` from the `compliance_summary` fallback data in
`App.js` (also reported in the Task A documentation). -/
def demo_fleet_average_intensity : ℚ := 78.8535

/-- Demo `target_intensity` from the `compliance_summary` fallback data in
`App.js`. -/
def demo_target_intensity : ℚ := 74.9108

/-- Demo `reduction_percentage` from the `compliance_summary` fallback data in
`App.js` (5.0, i.e. a reduction fraction of 0.05). -/
def demo_reduction_percentage : ℚ := 5.0

/-- A raw voyage record as far as the fleet-summary computation needs it:
distance travelled and measured CO2 emission. -/
structure VoyageRecord where
  vessel_id : String
  distance : ℚ
  co2_emission : ℚ
deriving DecidableEq

/-- Modelled from the spec: the IntensityCalculator (`compliance.py` is not among
the sources): GHG intensity is CO2 divided by distance, undefined when the
distance is zero. -/
def intensity (r : VoyageRecord) : Option ℚ :=
  if r.distance = 0 then none else some (r.co2_emission / r.distance)

/-- Modelled from the spec: the compliance balances `target − intensity` of the
records with defined intensity, records with undefined intensity excluded. -/
def definedBalances (tgt : ℚ) (records : List VoyageRecord) : List ℚ :=
  (records.filterMap intensity).map (fun i => tgt - i)

/-- Modelled from the spec: the FleetSummary assembly of the ComplianceDataset
(`compliance.py` is not among the sources). Records with undefined intensity are
excluded consistently; surplus counts balances ≥ 0, deficit counts balances < 0;
total surplus sums the positive balances and total deficit the negative ones. -/
def mkFleetSummary (tgt : ℚ) (records : List VoyageRecord) : ComplianceSummary :=
  let balances := definedBalances tgt records
  { total_vessels := balances.length
    surplus_count := (balances.filter (fun b => decide (b ≥ 0))).length
    deficit_count := (balances.filter (fun b => decide (b < 0))).length
    total_surplus := (balances.filter (fun b => decide (b > 0))).sum
    total_deficit := (balances.filter (fun b => decide (b < 0))).sum }

/-- A concrete deficit vessel with the documentation's example deficit balance
−24.53 (intensity 99.44 against target 74.91). -/
def exampleDeficitVessel : Vessel :=
  { vessel_id := "NG201", ship_type := "Tanker Ship", route_id := "Lagos-Bonny"
    month := "March", ghg_intensity := 99.44, compliance_balance := -24.53
    status := "Deficit" }

/-- A concrete deficit vessel with the documentation's example balance −5.43
(the NG001 record of the Task A output sample). -/
def exampleDeficitVessel2 : Vessel :=
  { vessel_id := "NG001", ship_type := "Oil Service Boat", route_id := "Warri-Bonny"
    month := "January", ghg_intensity := 80.3399, compliance_balance := -5.43
    status := "Deficit" }

/-- A concrete surplus vessel with the documentation's example surplus balance
+22.81 (intensity 52.10 against target 74.91). -/
def exampleSurplusVessel : Vessel :=
  { vessel_id := "NG305", ship_type := "Fishing Trawler", route_id := "Warri-Escravos"
    month := "March", ghg_intensity := 52.10, compliance_balance := 22.81
    status := "Surplus" }

/-- A second concrete surplus vessel, used to exercise a same-status pairing. -/
def exampleSurplusVessel2 : Vessel :=
  { vessel_id := "NG412", ship_type := "Surfer Boat", route_id := "Lagos-Apapa"
    month := "April", ghg_intensity := 70.0, compliance_balance := 4.91
    status := "Surplus" }

/-- The simulation result stored for the pairing of `exampleDeficitVessel`
(balance −24.53) with `exampleSurplusVessel` (balance +22.81), written as the value
`simulatePooling` produces definitionally. -/
def exampleResult : SimulationResult :=
  { deficitVessel := exampleDeficitVessel
    surplusVessel := exampleSurplusVessel
    deficitBalance := exampleDeficitVessel.compliance_balance
    surplusBalance := exampleSurplusVessel.compliance_balance
    netBalance :=
      exampleSurplusVessel.compliance_balance + exampleDeficitVessel.compliance_balance
    isSuccessful :=
      decide (exampleSurplusVessel.compliance_balance +
        exampleDeficitVessel.compliance_balance ≥ 0)
    remainingDeficit :=
      if exampleSurplusVessel.compliance_balance +
          exampleDeficitVessel.compliance_balance < 0 then
        mathAbs (exampleSurplusVessel.compliance_balance +
          exampleDeficitVessel.compliance_balance)
      else 0
    remainingSurplus :=
      if exampleSurplusVessel.compliance_balance +
          exampleDeficitVessel.compliance_balance > 0 then
        exampleSurplusVessel.compliance_balance + exampleDeficitVessel.compliance_balance
      else 0 }

/-- The simulation result stored for the pairing of `exampleDeficitVessel2`
(balance −5.43) with `exampleSurplusVessel` (balance +22.81), written as the value
`simulatePooling` produces definitionally. -/
def exampleResult2 : SimulationResult :=
  { deficitVessel := exampleDeficitVessel2
    surplusVessel := exampleSurplusVessel
    deficitBalance := exampleDeficitVessel2.compliance_balance
    surplusBalance := exampleSurplusVessel.compliance_balance
    netBalance :=
      exampleSurplusVessel.compliance_balance + exampleDeficitVessel2.compliance_balance
    isSuccessful :=
      decide (exampleSurplusVessel.compliance_balance +
        exampleDeficitVessel2.compliance_balance ≥ 0)
    remainingDeficit :=
      if exampleSurplusVessel.compliance_balance +
          exampleDeficitVessel2.compliance_balance < 0 then
        mathAbs (exampleSurplusVessel.compliance_balance +
          exampleDeficitVessel2.compliance_balance)
      else 0
    remainingSurplus :=
      if exampleSurplusVessel.compliance_balance +
          exampleDeficitVessel2.compliance_balance > 0 then
        exampleSurplusVessel.compliance_balance + exampleDeficitVessel2.compliance_balance
      else 0 }

/-- C1: for every pooling evaluation of a deficit record and a surplus record, the
computed net balance equals the surplus record's compliance balance plus the deficit
record's compliance balance, and the outcome is marked successful if and only if
that net balance is at least zero. -/
theorem pooling_net_balance_success (d s : Vessel) (prev : Option SimulationResult)
    (r : SimulationResult) (_hd : d.status = "Deficit") (_hs : s.status = "Surplus")
    (h : simulatePooling (some d) (some s) prev = some r) :
    r.netBalance = s.compliance_balance + d.compliance_balance ∧
    (r.isSuccessful = true ↔ r.netBalance ≥ 0) := by
  simp only [simulatePooling, Option.some.injEq] at h
  subst h
  exact ⟨rfl, by simp⟩

/-- Witness for C1: the theorem applied to the concrete −24.53 deficit /
+22.81 surplus pairing. -/
theorem pooling_net_balance_success_witness :
    exampleDeficitVessel.status = "Deficit" ∧
    exampleSurplusVessel.status = "Surplus" ∧
    simulatePooling (some exampleDeficitVessel) (some exampleSurplusVessel) none =
      some exampleResult ∧
    (exampleResult.netBalance =
        exampleSurplusVessel.compliance_balance + exampleDeficitVessel.compliance_balance ∧
      (exampleResult.isSuccessful = true ↔ exampleResult.netBalance ≥ 0)) :=
  ⟨rfl, rfl, rfl,
    pooling_net_balance_success exampleDeficitVessel exampleSurplusVessel none
      exampleResult rfl rfl rfl⟩

/-- C7: the pooling evaluation on the deficit balance −24.53 with surplus balance
+22.81 yields net −1.72, not successful, remaining deficit 1.72, remaining surplus
0; on the deficit balance −5.43 with surplus balance +22.81 it yields net +17.38,
successful, remaining surplus 17.38, remaining deficit 0. -/
theorem pooling_concrete_scenarios :
    simulatePooling (some exampleDeficitVessel) (some exampleSurplusVessel) none =
      some exampleResult ∧
    exampleResult.netBalance = -1.72 ∧
    exampleResult.isSuccessful = false ∧
    exampleResult.remainingDeficit = 1.72 ∧
    exampleResult.remainingSurplus = 0 ∧
    simulatePooling (some exampleDeficitVessel2) (some exampleSurplusVessel) none =
      some exampleResult2 ∧
    exampleResult2.netBalance = 17.38 ∧
    exampleResult2.isSuccessful = true ∧
    exampleResult2.remainingSurplus = 17.38 ∧
    exampleResult2.remainingDeficit = 0 := by
  have h1 : exampleSurplusVessel.compliance_balance +
      exampleDeficitVessel.compliance_balance = (-1.72 : ℚ) := by
    norm_num [exampleSurplusVessel, exampleDeficitVessel]
  have h2 : exampleSurplusVessel.compliance_balance +
      exampleDeficitVessel2.compliance_balance = (17.38 : ℚ) := by
    norm_num [exampleSurplusVessel, exampleDeficitVessel2]
  have hlt1 : exampleSurplusVessel.compliance_balance +
      exampleDeficitVessel.compliance_balance < 0 := by rw [h1]; norm_num
  have hngt1 : ¬(exampleSurplusVessel.compliance_balance +
      exampleDeficitVessel.compliance_balance > 0) := by rw [h1]; norm_num
  have hgt2 : exampleSurplusVessel.compliance_balance +
      exampleDeficitVessel2.compliance_balance > 0 := by rw [h2]; norm_num
  have hnlt2 : ¬(exampleSurplusVessel.compliance_balance +
      exampleDeficitVessel2.compliance_balance < 0) := by rw [h2]; norm_num
  refine ⟨rfl, ?_, ?_, ?_, ?_, rfl, ?_, ?_, ?_, ?_⟩
  · simpa only [exampleResult] using h1
  · simp only [exampleResult, decide_eq_false_iff_not]
    rw [h1]; norm_num
  · simp only [exampleResult]
    rw [if_pos hlt1, mathAbs, if_pos hlt1, h1]; norm_num
  · simp only [exampleResult]
    rw [if_neg hngt1]
  · simpa only [exampleResult2] using h2
  · simp only [exampleResult2, decide_eq_true_eq]
    exact le_of_lt hgt2
  · simp only [exampleResult2]
    rw [if_pos hgt2]; exact h2
  · simp only [exampleResult2]
    rw [if_neg hnlt2]

/-- C10: when either selection is absent, `simulatePooling` returns without
producing a simulation result, leaving the previously stored result unchanged. -/
theorem absent_selection_keeps_result (d s : Option Vessel)
    (prev : Option SimulationResult) (h : d = none ∨ s = none) :
    simulatePooling d s prev = prev := by
  rcases h with h | h
  · subst h; rfl
  · subst h; cases d <;> rfl

/-- Witness for C10: an absent deficit selection next to a present surplus
selection leaves a previously stored result in place. -/
theorem absent_selection_keeps_result_witness :
    ((none : Option Vessel) = none ∨ (some exampleSurplusVessel : Option Vessel) = none) ∧
    simulatePooling none (some exampleSurplusVessel) (some exampleResult) =
      some exampleResult :=
  ⟨Or.inl rfl,
    absent_selection_keeps_result none (some exampleSurplusVessel)
      (some exampleResult) (Or.inl rfl)⟩

/-- C3 counterexample: `simulatePooling` given two records of the same status
(both `"Surplus"`) does not fail and does not return early; it computes and stores
a simulation result. -/
theorem same_status_pair_not_rejected :
    exampleSurplusVessel.status = exampleSurplusVessel2.status ∧
    simulatePooling (some exampleSurplusVessel) (some exampleSurplusVessel2) none ≠
      none := by
  refine ⟨rfl, ?_⟩
  simp [simulatePooling]

/-- C3 amended: `simulatePooling` performs no status validation and has no
failure channel; given any two present selections, same status included, it
computes and stores the pooling result with the usual net balance. -/
theorem same_status_pair_computed (d s : Vessel) (prev : Option SimulationResult)
    (_hsame : d.status = s.status) :
    (simulatePooling (some d) (some s) prev).isSome = true ∧
    (simulatePooling (some d) (some s) prev).map SimulationResult.netBalance =
      some (s.compliance_balance + d.compliance_balance) :=
  ⟨rfl, rfl⟩

/-- Witness for the amended C3: two concrete surplus vessels are pooled without
rejection. -/
theorem same_status_pair_computed_witness :
    exampleSurplusVessel.status = exampleSurplusVessel2.status ∧
    ((simulatePooling (some exampleSurplusVessel) (some exampleSurplusVessel2)
        none).isSome = true ∧
      (simulatePooling (some exampleSurplusVessel) (some exampleSurplusVessel2)
          none).map SimulationResult.netBalance =
        some (exampleSurplusVessel2.compliance_balance +
          exampleSurplusVessel.compliance_balance)) :=
  ⟨rfl, same_status_pair_computed exampleSurplusVessel exampleSurplusVessel2 none rfl⟩

/-- The remainder fields of the stored result, as functions of the net balance:
the deficit remainder is `max 0 (−net)`, the surplus remainder is `max 0 net`, at
most one of the two is nonzero, and both vanish exactly when the net balance is
zero. -/
theorem remainders_spec (n : ℚ) :
    (if n < 0 then mathAbs n else 0) = max 0 (-n) ∧
    (if n > 0 then n else 0) = max 0 n ∧
    ((if n < 0 then mathAbs n else 0) = 0 ∨ (if n > 0 then n else 0) = 0) ∧
    (((if n < 0 then mathAbs n else 0) = 0 ∧ (if n > 0 then n else 0) = 0) ↔
      n = 0) := by
  rcases lt_trichotomy n 0 with hlt | heq | hgt
  · rw [if_pos hlt, if_neg (by linarith : ¬n > 0), mathAbs, if_pos hlt]
    refine ⟨(max_eq_right (by linarith)).symm, (max_eq_left (by linarith)).symm,
      Or.inr rfl, ?_⟩
    constructor
    · rintro ⟨h1, -⟩
      exact neg_eq_zero.mp h1
    · intro h0
      subst h0
      exact ⟨neg_zero, rfl⟩
  · subst heq
    rw [if_neg (lt_irrefl 0), if_neg (lt_irrefl 0)]
    refine ⟨by simp, by simp, Or.inl rfl, by simp⟩
  · rw [if_neg (by linarith : ¬n < 0), if_pos hgt]
    refine ⟨(max_eq_left (by linarith)).symm, (max_eq_right (by linarith)).symm,
      Or.inl rfl, ?_⟩
    constructor
    · rintro ⟨-, h2⟩
      exact h2
    · intro h0
      exact ⟨rfl, h0⟩

/-- C4: in every stored pooling result the deficit remainder equals
`max 0 (−net)`, the surplus remainder equals `max 0 net`, at most one of the two
remainders is nonzero, and both are zero exactly when the net balance is zero. -/
theorem pooling_remainders (d s : Vessel) (prev : Option SimulationResult)
    (r : SimulationResult)
    (h : simulatePooling (some d) (some s) prev = some r) :
    r.remainingDeficit = max 0 (-r.netBalance) ∧
    r.remainingSurplus = max 0 r.netBalance ∧
    (r.remainingDeficit = 0 ∨ r.remainingSurplus = 0) ∧
    ((r.remainingDeficit = 0 ∧ r.remainingSurplus = 0) ↔ r.netBalance = 0) := by
  simp only [simulatePooling, Option.some.injEq] at h
  subst h
  exact remainders_spec (s.compliance_balance + d.compliance_balance)

/-- Witness for C4: the theorem applied to the concrete −5.43 deficit /
+22.81 surplus pairing. -/
theorem pooling_remainders_witness :
    simulatePooling (some exampleDeficitVessel2) (some exampleSurplusVessel) none =
      some exampleResult2 ∧
    (exampleResult2.remainingDeficit = max 0 (-exampleResult2.netBalance) ∧
      exampleResult2.remainingSurplus = max 0 exampleResult2.netBalance ∧
      (exampleResult2.remainingDeficit = 0 ∨ exampleResult2.remainingSurplus = 0) ∧
      ((exampleResult2.remainingDeficit = 0 ∧ exampleResult2.remainingSurplus = 0) ↔
        exampleResult2.netBalance = 0)) :=
  ⟨rfl, pooling_remainders exampleDeficitVessel2 exampleSurplusVessel none
    exampleResult2 rfl⟩

/-- C2: a record is classified `"Surplus"` exactly when its compliance balance is
at least zero and `"Deficit"` exactly when it is strictly negative; a balance of
exactly zero is classified Surplus, not a third category. -/
theorem classify_surplus_deficit_boundary (b : ℚ) :
    (classify b = "Surplus" ↔ b ≥ 0) ∧
    (classify b = "Deficit" ↔ b < 0) ∧
    classify 0 = "Surplus" := by
  have h0 : classify 0 = "Surplus" := by
    rw [classify, if_pos le_rfl]
  by_cases hb : b ≥ 0
  · rw [classify, if_pos hb]
    refine ⟨⟨fun _ => hb, fun _ => rfl⟩, ⟨?_, ?_⟩, h0⟩
    · intro h
      exact absurd h (by decide)
    · intro h
      exact absurd hb (not_le.mpr h)
  · rw [classify, if_neg hb]
    refine ⟨⟨?_, ?_⟩, ⟨fun _ => not_le.mp hb, fun _ => rfl⟩, h0⟩
    · intro h
      exact absurd h (by decide)
    · intro h
      exact absurd h hb

/-- C5: the target intensity is the fleet average intensity times one minus the
reduction fraction, and on the demo data a fleet average of 78.8535 with reduction
0.05 yields a target within 0.001 of 74.9108. -/
theorem target_intensity_formula (a r : ℚ) (_h0 : 0 ≤ r) (_h1 : r < 1) :
    target a r = a * (1 - r) ∧
    |target demo_fleet_average_intensity (demo_reduction_percentage / 100) -
      demo_target_intensity| ≤ 1 / 1000 := by
  refine ⟨rfl, ?_⟩
  have hval : target demo_fleet_average_intensity (demo_reduction_percentage / 100) -
      demo_target_intensity = (1 / 40000 : ℚ) := by
    norm_num [target, demo_fleet_average_intensity, demo_target_intensity,
      demo_reduction_percentage]
  rw [hval, abs_of_pos (by norm_num)]
  norm_num

/-- Witness for C5: the theorem applied at reduction fraction 0. -/
theorem target_intensity_formula_witness :
    (0 : ℚ) ≤ 0 ∧ (0 : ℚ) < 1 ∧
    (target demo_fleet_average_intensity 0 = demo_fleet_average_intensity * (1 - 0) ∧
      |target demo_fleet_average_intensity (demo_reduction_percentage / 100) -
        demo_target_intensity| ≤ 1 / 1000) :=
  ⟨le_refl 0, zero_lt_one,
    target_intensity_formula demo_fleet_average_intensity 0 (le_refl 0) zero_lt_one⟩

/-- Every rational balance list splits exactly into its nonnegative and its
negative entries. -/
theorem length_filter_nonneg_add_neg (l : List ℚ) :
    (l.filter (fun b => decide (b ≥ 0))).length +
      (l.filter (fun b => decide (b < 0))).length = l.length := by
  induction l with
  | nil => rfl
  | cons x l ih =>
    by_cases hx : x ≥ 0
    · rw [List.filter_cons, List.filter_cons, if_pos (by simpa using hx),
        if_neg (by simpa using not_lt.mpr hx)]
      simp only [List.length_cons]
      omega
    · rw [List.filter_cons, List.filter_cons, if_neg (by simpa using hx),
        if_pos (by simpa using not_le.mp hx)]
      simp only [List.length_cons]
      omega

/-- C6: in every fleet summary produced by the pipeline, the surplus count plus
the deficit count equals the total vessel count, records with undefined intensity
being excluded consistently from both sides. -/
theorem surplus_deficit_counts_partition (tgt : ℚ) (records : List VoyageRecord) :
    (mkFleetSummary tgt records).surplus_count +
      (mkFleetSummary tgt records).deficit_count =
      (mkFleetSummary tgt records).total_vessels := by
  simp only [mkFleetSummary]
  exact length_filter_nonneg_add_neg _

/-- The sum of the positive entries plus the sum of the negative entries of a
rational list is the sum of the whole list. -/
theorem sum_filter_pos_add_neg (l : List ℚ) :
    (l.filter (fun b => decide (b > 0))).sum +
      (l.filter (fun b => decide (b < 0))).sum = l.sum := by
  induction l with
  | nil => simp
  | cons x l ih =>
    rcases lt_trichotomy x 0 with hx | hx | hx
    · rw [List.filter_cons, List.filter_cons, if_neg (by simpa using asymm hx),
        if_pos (by simpa using hx)]
      simp only [List.sum_cons]
      linarith
    · subst hx
      rw [List.filter_cons, List.filter_cons, if_neg (by simp),
        if_neg (by simp)]
      simp only [List.sum_cons]
      linarith
    · rw [List.filter_cons, List.filter_cons, if_pos (by simpa using hx),
        if_neg (by simpa using asymm hx)]
      simp only [List.sum_cons]
      linarith

/-- C8: the net fleet position displayed by the fleet overview equals the total
surplus (the sum of the positive balances) plus the total deficit (the sum of the
negative balances); together these make up the sum of all defined balances. -/
theorem net_position_eq_totals (tgt : ℚ) (records : List VoyageRecord) :
    netPosition (mkFleetSummary tgt records) =
      ((definedBalances tgt records).filter (fun b => decide (b > 0))).sum +
        ((definedBalances tgt records).filter (fun b => decide (b < 0))).sum ∧
    netPosition (mkFleetSummary tgt records) = (definedBalances tgt records).sum := by
  refine ⟨rfl, ?_⟩
  simp only [netPosition, mkFleetSummary]
  exact sum_filter_pos_add_neg _

/-- C9: the pooling simulator's candidate lists are exactly the records whose
status is `"Deficit"` (sorted by ascending compliance balance) and `"Surplus"`
(sorted by descending compliance balance), respectively. -/
theorem candidate_lists_partition_sorted (vessels : List Vessel) :
    (deficitVessels vessels).Perm
      (vessels.filter (fun v => v.status == "Deficit")) ∧
    List.Pairwise (fun a b : Vessel =>
      a.compliance_balance ≤ b.compliance_balance) (deficitVessels vessels) ∧
    (surplusVessels vessels).Perm
      (vessels.filter (fun v => v.status == "Surplus")) ∧
    List.Pairwise (fun a b : Vessel =>
      b.compliance_balance ≤ a.compliance_balance) (surplusVessels vessels) := by
  have transAsc : ∀ (a b c : Vessel),
      decide (a.compliance_balance ≤ b.compliance_balance) →
      decide (b.compliance_balance ≤ c.compliance_balance) →
      decide (a.compliance_balance ≤ c.compliance_balance) := by
    intro a b c hab hbc
    simp only [decide_eq_true_eq] at hab hbc ⊢
    exact le_trans hab hbc
  have totalAsc : ∀ (a b : Vessel),
      (decide (a.compliance_balance ≤ b.compliance_balance) ||
        decide (b.compliance_balance ≤ a.compliance_balance)) = true := by
    intro a b
    simp only [Bool.or_eq_true, decide_eq_true_eq]
    exact le_total _ _
  have transDesc : ∀ (a b c : Vessel),
      decide (b.compliance_balance ≤ a.compliance_balance) →
      decide (c.compliance_balance ≤ b.compliance_balance) →
      decide (c.compliance_balance ≤ a.compliance_balance) := by
    intro a b c hab hbc
    simp only [decide_eq_true_eq] at hab hbc ⊢
    exact le_trans hbc hab
  have totalDesc : ∀ (a b : Vessel),
      (decide (b.compliance_balance ≤ a.compliance_balance) ||
        decide (a.compliance_balance ≤ b.compliance_balance)) = true := by
    intro a b
    simp only [Bool.or_eq_true, decide_eq_true_eq]
    exact le_total _ _
  refine ⟨List.mergeSort_perm _ _, ?_, List.mergeSort_perm _ _, ?_⟩
  · have h := List.sorted_mergeSort transAsc totalAsc
      (vessels.filter (fun v => v.status == "Deficit"))
    exact h.imp (fun hab => of_decide_eq_true hab)
  · have h := List.sorted_mergeSort transDesc totalDesc
      (vessels.filter (fun v => v.status == "Surplus"))
    exact h.imp (fun hab => of_decide_eq_true hab)

end MindX
